import Mathlib

/-!
Shallow embedding of the glue logic of the strands-samples repository
(web_ui.py, agent-graph.py, agent-graph-ui.py, agent-intro.py) and proofs
about it.  Python dictionaries that the code inspects key-by-key are
embedded as records of `Option` fields; Python exceptions are embedded as
`Except`; JSON values handled opaquely by the code are embedded by an
explicit `Json` inductive.
-/

namespace StrandsSamples

/-- A JSON value, as produced by `yaml.safe_load` / consumed by `json.dumps`
in the scripts.  Python `dict`s are association lists here. -/
inductive Json where
  | null : Json
  | bool (b : Bool) : Json
  | num (n : Int) : Json
  | str (s : String) : Json
  | arr (elems : List Json) : Json
  | obj (fields : List (String × Json)) : Json

/-- Embedding of Python `json.dumps` (default separators). A literal brace
is written with an escape to keep the serializer's output explicit. -/
def Json.dumps : Json → String
  | .null => "null"
  | .bool true => "true"
  | .bool false => "false"
  | .num n => toString n
  | .str s => "\"" ++ s ++ "\""
  | .arr elems =>
      "[" ++ String.intercalate ", " (elems.attach.map (fun e => Json.dumps e.1)) ++ "]"
  | .obj fields =>
      "\x7b" ++
        String.intercalate ", "
          (fields.attach.map (fun p => "\"" ++ p.1.1 ++ "\": " ++ Json.dumps p.1.2)) ++
      "\x7d"
  decreasing_by
  · have h := List.sizeOf_lt_of_mem e.2
    simp only [Json.arr.sizeOf_spec]
    omega
  · have h := List.sizeOf_lt_of_mem p.2
    have h2 : sizeOf p.1.2 < sizeOf p.1 := by
      obtain ⟨⟨a, b⟩, hp⟩ := p
      simp
    simp only [Json.obj.sizeOf_spec]
    omega

/-- Python `k in v` for a JSON value `v`: key membership for dicts,
substring test is not needed by the scripts for non-dicts, which the
code only reaches with dict payloads; non-dicts give `false` here. -/
def Json.hasKey (j : Json) (k : String) : Bool :=
  match j with
  | .obj fields => fields.any (fun p => p.1 == k)
  | _ => false

/-!
## Graph building (strands `GraphBuilder` glue)

`agent-graph.py` (lines 163-178), `agent-graph-ui.py` (lines 165-180 and
299-311) and `web_ui.py` (`StrandsAgentManager._build_graph`) configure the
external framework's `GraphBuilder` through `add_node`, `add_edge` and
`set_entry_point` calls.  The builder is embedded as a state recording
exactly those calls; agents are identified by the node-name strings the
scripts pass.
-/

structure GraphBuilderState where
  nodes : List String
  edges : List (String × String)
  entry_point : Option String
deriving DecidableEq, Repr

def GraphBuilder.new : GraphBuilderState := ⟨[], [], none⟩

def GraphBuilderState.add_node (b : GraphBuilderState) (name : String) :
    GraphBuilderState :=
  { b with nodes := b.nodes ++ [name] }

def GraphBuilderState.add_edge (b : GraphBuilderState) (src dst : String) :
    GraphBuilderState :=
  { b with edges := b.edges ++ [(src, dst)] }

def GraphBuilderState.set_entry_point (b : GraphBuilderState) (name : String) :
    GraphBuilderState :=
  { b with entry_point := some name }

namespace AgentGraph

/-- The builder configured at module level in `agent-graph.py`, lines
163-172: four nodes, edges decomposer → kubectl agent → aggregator, entry
point at the decomposer. -/
def builder : GraphBuilderState :=
  ((((((GraphBuilder.new.add_node
      "task_decomposer").add_node
      "task_executor").add_node
      "kubectl_command_agent").add_node
      "result_aggregator").add_edge
      "task_decomposer" "kubectl_command_agent").add_edge
      "kubectl_command_agent" "result_aggregator").set_entry_point
      "task_decomposer"

end AgentGraph

namespace WebUI

/-- The builder configured in `StrandsAgentManager._build_graph` of
`web_ui.py`, lines 285-296 (same calls as `agent-graph.py`). -/
def builder : GraphBuilderState :=
  ((((((GraphBuilder.new.add_node
      "task_decomposer").add_node
      "task_executor").add_node
      "kubectl_command_agent").add_node
      "result_aggregator").add_edge
      "task_decomposer" "kubectl_command_agent").add_edge
      "kubectl_command_agent" "result_aggregator").set_entry_point
      "task_decomposer"

end WebUI

namespace AgentGraphUI

/-- The builder configured at module level in `agent-graph-ui.py`, lines
165-174 (same calls as `agent-graph.py`). -/
def builder : GraphBuilderState :=
  ((((((GraphBuilder.new.add_node
      "task_decomposer").add_node
      "task_executor").add_node
      "kubectl_command_agent").add_node
      "result_aggregator").add_edge
      "task_decomposer" "kubectl_command_agent").add_edge
      "kubectl_command_agent" "result_aggregator").set_entry_point
      "task_decomposer"

/-- The builder configured inside
`StrandsAgentManager.execute_task` of `agent-graph-ui.py`, lines 299-308:
three nodes, edges decomposer → executor → aggregator, and no
`set_entry_point` call. -/
def execute_task_builder : GraphBuilderState :=
  ((((GraphBuilder.new.add_node
      "task_decomposer").add_node
      "executor").add_node
      "result_aggregator").add_edge
      "task_decomposer" "executor").add_edge
      "executor" "result_aggregator"

end AgentGraphUI

/-!
## System-prompt loading

Both `web_ui.py` (`StrandsAgentManager.load_system_prompt`, lines 49-60)
and `agent-graph.py` / `agent-graph-ui.py` (`load_system_prompt`, lines
22-33) open a YAML file, parse it and read `config["system_prompt"]`,
catching `FileNotFoundError` and `yaml.YAMLError`.  The outcome of the
`open` + `yaml.safe_load` step is embedded as `FileRead`; a parsed YAML
mapping is an association list of string keys and values.  The Python
return value is an `Option String` (`none` is Python `None`); an uncaught
exception (the `KeyError` when the mapping lacks the key) is the `.error`
case of the `Except`.
-/

inductive FileRead where
  | notFound : FileRead
  | yamlError : FileRead
  | content (config : List (String × String)) : FileRead
deriving DecidableEq, Repr

/-- The fallback prompt hard-coded in `web_ui.py` lines 57 and 60. -/
def default_prompt : String :=
  "You are a helpful AI assistant that can break down complex tasks and execute them using various tools."

namespace WebUI

/-- `StrandsAgentManager.load_system_prompt` of `web_ui.py`, lines 49-60:
returns the hard-coded default on `FileNotFoundError` or `yaml.YAMLError`,
otherwise `config["system_prompt"]` (a `KeyError` if absent). -/
def load_system_prompt (file : FileRead) : Except String (Option String) :=
  match file with
  | .notFound => .ok (some default_prompt)
  | .yamlError => .ok (some default_prompt)
  | .content config =>
    match config.lookup "system_prompt" with
    | some v => .ok (some v)
    | none => .error "KeyError: system_prompt"

end WebUI

namespace AgentGraph

/-- `load_system_prompt` of `agent-graph.py`, lines 22-33: returns Python
`None` on `FileNotFoundError` or `yaml.YAMLError`, otherwise
`config["system_prompt"]`. -/
def load_system_prompt (file : FileRead) : Except String (Option String) :=
  match file with
  | .notFound => .ok none
  | .yamlError => .ok none
  | .content config =>
    match config.lookup "system_prompt" with
    | some v => .ok (some v)
    | none => .error "KeyError: system_prompt"

end AgentGraph

namespace AgentGraphUI

/-- `load_system_prompt` of `agent-graph-ui.py`, lines 22-33: identical to
the `agent-graph.py` version. -/
def load_system_prompt (file : FileRead) : Except String (Option String) :=
  match file with
  | .notFound => .ok none
  | .yamlError => .ok none
  | .content config =>
    match config.lookup "system_prompt" with
    | some v => .ok (some v)
    | none => .error "KeyError: system_prompt"

end AgentGraphUI

/-!
## Environment variables for the MCP subprocess environments

`agent-intro.py` lines 24-46, `agent-graph.py` lines 36-57,
`agent-graph-ui.py` lines 36-57 and `web_ui.py` lines 64-86 all build the
same two `env=` dictionaries with `os.getenv(name, default)`.  The process
environment is a partial map from names to values.
-/

/-- The `env=` dictionary passed to the AWS-documentation MCP subprocess
(`os.getenv` with defaults `""`, `""`, `"us-east-1"`). -/
def aws_docs_env (env : String → Option String) : List (String × String) :=
  [("AWS_ACCESS_KEY_ID", (env "AWS_ACCESS_KEY_ID").getD ""),
   ("AWS_SECRET_ACCESS_KEY", (env "AWS_SECRET_ACCESS_KEY").getD ""),
   ("AWS_DEFAULT_REGION", (env "AWS_DEFAULT_REGION").getD "us-east-1")]

/-- The `env=` dictionary passed to the GitHub MCP subprocess
(`os.getenv` with default `""`). -/
def github_env (env : String → Option String) : List (String × String) :=
  [("GITHUB_PERSONAL_ACCESS_TOKEN",
    (env "GITHUB_PERSONAL_ACCESS_TOKEN").getD "")]

/-- A process environment in which none of the variables is set. -/
def empty_env : String → Option String := fun _ => none

/-!
## MCP tool loading

Tools are identified by name strings.  A run of a `with client: ...
list_tools_sync()` block either yields a list of tool names or raises; the
outcome is a parameter of type `Except String (List String)` (the error
string is the stringified exception `e`).
-/

/-- The four base tools of `agent-graph.py` line 67, `agent-graph-ui.py`
lines 60 and 236, and `web_ui.py` line 89:
`[calculator, current_time, use_aws, shell.shell]`. -/
def base_tools : List String :=
  ["calculator", "current_time", "use_aws", "shell.shell"]

namespace AgentGraph

/-- The module-level tool loading of `agent-graph.py`, lines 67-79: the
two `with client: list_tools_sync()` blocks run with NO surrounding
`try`/`except`, so an exception in either propagates and aborts the
script (`.error`).  On success the listed tools are appended to the four
base tools. -/
def all_tools (awsList ghList : Except String (List String)) :
    Except String (List String) := do
  let tools := base_tools
  let aws_tools ← awsList
  let tools := tools ++ aws_tools
  let github_tools ← ghList
  let tools := tools ++ github_tools
  return tools

end AgentGraph

namespace AgentGraphUI

/-- The module-level tool loading of `agent-graph-ui.py`, lines 59-81:
each listing block sits in its own `try`/`except Exception`, which prints
a warning and continues.  Returns the final `all_tools` list together
with the lines printed. -/
def all_tools (awsList ghList : Except String (List String)) :
    List String × List String :=
  let tools := base_tools
  let (tools, out1) :=
    match awsList with
    | .ok aws_tools =>
        (tools ++ aws_tools, ["AWS MCP tools loaded successfully"])
    | .error e => (tools, ["AWS MCP tools failed to load: " ++ e])
  let (tools, out2) :=
    match ghList with
    | .ok github_tools =>
        (tools ++ github_tools, ["GitHub MCP tools loaded successfully"])
    | .error e => (tools, ["GitHub MCP tools failed to load: " ++ e])
  (tools, out1 ++ out2 ++ ["Total tools loaded: " ++ toString tools.length])

/-- `StrandsAgentManager._load_tools` of `agent-graph-ui.py`, lines
234-255: starts from the four base tools, attempts both listings inside
`try`/`except` blocks, but never appends the listed tools (`aws_tools` and
`github_tools` are bound and discarded), and returns `all_tools`.  Returns
the tool list together with the lines printed. -/
def load_tools (awsList ghList : Except String (List String)) :
    List String × List String :=
  let tools := base_tools
  let out1 :=
    match awsList with
    | .ok _ => ["AWS MCP tools loaded successfully"]
    | .error e => ["AWS MCP tools failed to load: " ++ e]
  let out2 :=
    match ghList with
    | .ok _ => ["GitHub MCP tools loaded successfully"]
    | .error e => ["GitHub MCP tools failed to load: " ++ e]
  (tools, out1 ++ out2 ++ ["Total tools loaded: " ++ toString tools.length])

end AgentGraphUI

/-!
## Callback-event classification (`web_ui.py`)

`StrandsAgentManager.event_handler_func` (lines 118-201) inspects a
callback payload dictionary key by key.  The payload is embedded as a
record of `Option` fields, one per key the function reads; a `none` field
is an absent key.  Keys whose values the function never reads
(`messageStart`, `messageStop`, `contentBlockStop`, the loop-control
flags) are presence booleans.
-/

namespace WebUI

/-- The value under `"current_tool_use"`: the function calls
`.get("name")` (truthiness-checked) and `.get("input", ...)`. -/
structure CurrentToolUse where
  name : Option String
  input : Option Json

/-- The value under `...["contentBlockStart"]["start"]["toolUse"]`. -/
structure CBStartToolUse where
  name : String

/-- The value under `...["contentBlockStart"]["start"]`. -/
structure CBStartStart where
  toolUse : Option CBStartToolUse

/-- The value under `...["contentBlockStart"]`. -/
structure CBStart where
  start : Option CBStartStart

/-- The value under `...["contentBlockDelta"]["delta"]["toolUse"]`. -/
structure CBDeltaToolUse where
  input : String

/-- The value under `...["contentBlockDelta"]["delta"]`. -/
structure CBDeltaDelta where
  text : Option String
  toolUse : Option CBDeltaToolUse

/-- The value under `...["contentBlockDelta"]`. -/
structure CBDelta where
  delta : Option CBDeltaDelta

/-- The value under the top-level `"event"` key. -/
structure InnerEvent where
  messageStart : Bool
  messageStop : Bool
  contentBlockStart : Option CBStart
  contentBlockStop : Bool
  contentBlockDelta : Option CBDelta
  metadata : Option Json

/-- The value under `...["delta"]["current_tool_use"]`. -/
structure DeltaCTU where
  name : String
  input : String

/-- The value under the top-level `"delta"` key. -/
structure DeltaVal where
  current_tool_use : Option DeltaCTU

/-- A callback payload, one optional field per key
`event_handler_func` reads. -/
structure CallbackEvent where
  init_event_loop : Bool := false
  start_event_loop : Bool := false
  start : Bool := false
  current_tool_use : Option CurrentToolUse := none
  data : Option String := none
  event : Option InnerEvent := none
  delta : Option DeltaVal := none
  message : Option Json := none

/-- The four local variables `event_handler_func` computes before the
final append decision. -/
structure Classified where
  event_type : String
  tool_name : String
  tool_input : String
  message : String
deriving DecidableEq, Repr

/-- The classification part of `event_handler_func` (`web_ui.py` lines
122-193): computes the locals `event_type`, `tool_name`, `tool_input`,
`message` exactly as the chain of `if` statements does, threading the four
locals as a `Classified` record (the `print` and `logger` calls have no
effect on them). -/
def classifyEvent (event : CallbackEvent) : Classified :=
  -- lines 122-126: initial values of the four locals
  let c : Classified := ⟨"n/a", "", "", ""⟩
  -- lines 128-133: init_event_loop / start_event_loop / start only print
  -- lines 137-142
  let c :=
    match event.current_tool_use with
    | some ctu =>
      match ctu.name with
      | some n =>
        if n ≠ "" then
          { c with
            tool_name := n,
            tool_input := Json.dumps (ctu.input.getD (Json.obj [])),
            event_type := "tool_use" }
        else c
      | none => c
    | none => c
  -- lines 145-149
  let c :=
    match event.data with
    | some d => { c with event_type := "text", message := d }
    | none => c
  -- lines 151-182
  let c :=
    match event.event with
    | some inner =>
      let c :=
        if inner.messageStart then
          { c with message := "Message generation started",
                   event_type := "control" }
        else c
      if inner.messageStop then
        { c with message := "Message generation ended",
                 event_type := "control" }
      else
        match inner.contentBlockStart with
        | some cbs =>
          let c :=
            match cbs.start with
            | some s =>
              match s.toolUse with
              | some tu =>
                { c with event_type := "tool_use", tool_name := tu.name }
              | none => c
            | none => c
          { c with message := "Content block generation started",
                   event_type := "control" }
        | none =>
          if inner.contentBlockStop then
            { c with message := "Content block generation ended",
                     event_type := "control" }
          else
            match inner.contentBlockDelta with
            | some cbd =>
              match cbd.delta with
              | some d =>
                match d.text with
                | some t => { c with event_type := "text", message := t }
                | none =>
                  match d.toolUse with
                  | some tu =>
                    { c with event_type := "tool_use",
                             tool_input := tu.input }
                  | none => c
              | none => c
            | none =>
              match inner.metadata with
              | some md =>
                { c with message := "Metadata: " ++ Json.dumps md,
                         event_type := "metadata" }
              | none => c
    | none => c
  -- lines 184-188
  let c :=
    match event.delta with
    | some dv =>
      match dv.current_tool_use with
      | some ctu =>
        { c with tool_name := ctu.name, tool_input := ctu.input,
                 event_type := "tool_use" }
      | none => c
    | none => c
  -- lines 190-193
  let c :=
    match event.message with
    | some m =>
      if m.hasKey "role" then
        { c with message := Json.dumps m, event_type := "message" }
      else c
    | none => c
  c

/-- A record of the `AgentEvent` dataclass of `web_ui.py` lines 31-37
(the `time.time()` timestamp is the abstract clock value `now`). -/
structure AgentEvent where
  timestamp : Nat
  event_type : String
  tool_name : String
  tool_input : String
  message : String
deriving DecidableEq, Repr

/-- `event_handler_func` as a transformer of the `agent_events` list
(`web_ui.py` lines 195-201): classify, then append an `AgentEvent` record
exactly when `event_type in ["message"]`. -/
def event_handler_func (now : Nat) (agent_events : List AgentEvent)
    (event : CallbackEvent) : List AgentEvent :=
  let c := classifyEvent event
  if ["message"].contains c.event_type then
    agent_events ++
      [⟨now, c.event_type, c.tool_name, c.tool_input, c.message⟩]
  else
    agent_events

/-- The `agent_events` list after a sequence of callbacks has been
processed, starting from the empty list set up in `__init__`. -/
def agent_events_after (now : Nat) (payloads : List CallbackEvent) :
    List AgentEvent :=
  payloads.foldl (event_handler_func now) []

end WebUI

/-!
## Markdown reformatting (`agent-graph-ui.py`)

`format_markdown_output` (module level, lines 186-227) and
`StrandsAgentManager.format_markdown_output` (lines 316-364) both end with
the same per-line pass from `lines = output.split('\n')` to
`'\n'.join(formatted_lines)`; the module-level version has an extra
bullet-point branch.  Each loop iteration appends exactly one line, so the
pass is the map of a per-line function.
-/

/-- Python `str.strip()`: drop leading and trailing whitespace. -/
def pyStrip (s : String) : String :=
  ⟨((s.data.dropWhile Char.isWhitespace).reverse.dropWhile
      Char.isWhitespace).reverse⟩

/-- Python `str.lower()`. -/
def pyLower (s : String) : String := ⟨s.data.map Char.toLower⟩

/-- Python `s.startswith(pre)`. -/
def pyStartsWith (s pre : String) : Bool := pre.data.isPrefixOf s.data

/-- Python slice `s[n:]` (by characters). -/
def pyDrop (s : String) (n : Nat) : String := ⟨s.data.drop n⟩

/-- Python `s.split(sep)` for a one-character separator. -/
def pySplit (s : String) (sep : Char) : List String :=
  (s.data.splitOn sep).map (fun cs => (⟨cs⟩ : String))

/-- Python `sep.join(lines)` for a one-character separator. -/
def pyJoin (sep : Char) (lines : List String) : String :=
  ⟨List.intercalate [sep] (lines.map String.data)⟩

/-- Substring test (Python `sub in s` for strings). -/
def strContainsSub (s sub : String) : Bool :=
  go sub.data s.data
where
  go (pat cs : List Char) : Bool :=
    match cs with
    | [] => pat.isEmpty
    | _ :: rest => pat.isPrefixOf cs || go pat rest

/-- The five section labels tested against `line.lower()`
(`agent-graph-ui.py` lines 211 and 353). -/
def header_labels : List String :=
  ["executive summary", "key findings", "issues/errors", "recommendations",
   "analysis"]

namespace AgentGraphUI

/-- One iteration of the formatting loop of the module-level
`format_markdown_output` (`agent-graph-ui.py` lines 204-225): strip, keep
blank lines, promote label lines not starting with `#` to `## ` headings,
normalize bullet lines starting with `-` or `•`, and pass everything else
through (the numbered-list branch appends the line unchanged, like the
default branch). -/
def format_markdown_line (l : String) : String :=
  let line := pyStrip l
  if line = "" then ""
  else if header_labels.any (fun h => strContainsSub (pyLower line) h) then
    if !pyStartsWith line "#" then "## " ++ line else line
  else if pyStartsWith line "-" || pyStartsWith line "•" then
    if !pyStartsWith line "- " then "- " ++ pyStrip (pyDrop line 1) else line
  else
    match line.data with
    | c0 :: c1 :: _ :: _ =>
      if c0.isDigit && (c1 == '.' || c1 == ')') then line else line
    | _ => line

/-- The per-line pass of the module-level `format_markdown_output`
(`agent-graph-ui.py` lines 200-227), applied to the extracted `output`
string. -/
def format_markdown_output (output : String) : String :=
  pyJoin '\n' ((pySplit output '\n').map format_markdown_line)

namespace StrandsAgentManager

/-- One iteration of the formatting loop of
`StrandsAgentManager.format_markdown_output` (`agent-graph-ui.py` lines
346-362): as the module-level loop but with no bullet-point branch. -/
def format_markdown_line (l : String) : String :=
  let line := pyStrip l
  if line = "" then ""
  else if header_labels.any (fun h => strContainsSub (pyLower line) h) then
    if !pyStartsWith line "#" then "## " ++ line else line
  else
    match line.data with
    | c0 :: c1 :: _ :: _ =>
      if c0.isDigit && (c1 == '.' || c1 == ')') then line else line
    | _ => line

/-- The per-line pass of `StrandsAgentManager.format_markdown_output`
(`agent-graph-ui.py` lines 342-364). -/
def format_markdown_output (output : String) : String :=
  pyJoin '\n' ((pySplit output '\n').map format_markdown_line)

end StrandsAgentManager

end AgentGraphUI

/-!
## Final-result extraction (`web_ui.py`)

`StrandsAgentManager._extract_final_result` (lines 321-360) walks a graph
result through `hasattr` checks, dictionary lookups and list indexing
inside a `try`/`except` whose handler runs a second guarded loop and
finally returns `str(graph_result)`.  Attributes are `Option` fields
(`none` is an absent attribute, so `hasattr` is `isSome`); a raised
exception (`IndexError` from `[-1]`, `KeyError` from a missing dict key)
is `.error ()`.
-/

namespace WebUI

/-- An element of `message['content']`: `item['text']` raises `KeyError`
when `text` is `none`. -/
structure ContentItem where
  text : Option String
deriving DecidableEq, Repr

/-- An agent message dictionary: `'content' in message` and
`message['content']`. -/
structure AgentMessage where
  content : Option (List ContentItem)
deriving DecidableEq, Repr

/-- The `AgentResult` inside a `NodeResult`. -/
structure AgentResult where
  message : Option AgentMessage
deriving DecidableEq, Repr

/-- A `NodeResult`, with the nested `result` attribute. -/
structure NodeResult where
  result : Option AgentResult
deriving DecidableEq, Repr

/-- An element of `graph_result.execution_order`. -/
structure Execution where
  result : Option NodeResult
deriving DecidableEq, Repr

/-- The attributes of a non-string graph result. -/
structure GraphResultObj where
  execution_order : Option (List Execution)
  results : Option (List (String × NodeResult))
deriving DecidableEq, Repr

/-- A graph result: either a plain string (the `isinstance(graph_result,
str)` branch) or an object with the two optional attributes. -/
inductive GraphResult where
  | str (s : String) : GraphResult
  | obj (o : GraphResultObj) : GraphResult
deriving DecidableEq, Repr

/-- Python `str(...)` on the embedded graph result (total). -/
def GraphResult.pystr : GraphResult → String
  | .str s => s
  | .obj o =>
      "GraphResult(execution_order=" ++ toString (repr o.execution_order) ++
        ", results=" ++ toString (repr o.results) ++ ")"

/-- The first `if` block of `_extract_final_result` (lines 325-332):
`ok (some s)` is an executed `return s`, `ok none` falls through,
`error ()` is a raised exception. -/
def extract_block_one : GraphResult → Except Unit (Option String)
  | .str _ => .ok none
  | .obj o =>
    match o.execution_order with
    | none => .ok none
    | some [] => .ok none
    | some (e :: es) =>
      match (e :: es).getLast? with
      | none => .ok none
      | some last_execution =>
        match last_execution.result with
        | none => .ok none
        | some nr =>
          match nr.result with
          | none => .ok none
          | some agent_result =>
            match agent_result.message with
            | none => .ok none
            | some msg =>
              match msg.content with
              | none => .ok none
              | some content =>
                match content.getLast? with
                | none => .error ()
                | some item =>
                  match item.text with
                  | none => .error ()
                  | some t => .ok (some t)

/-- The second `if` block of `_extract_final_result` (lines 335-338):
note `'content'` is NOT membership-checked here, so a message without
`content` raises `KeyError`. -/
def extract_block_two : GraphResult → Except Unit (Option String)
  | .str _ => .ok none
  | .obj o =>
    match o.results with
    | none => .ok none
    | some results =>
      match results.lookup "result_aggregator" with
      | none => .ok none
      | some node_result =>
        match node_result.result with
        | none => .ok none
        | some ar =>
          match ar.message with
          | none => .ok none
          | some msg =>
            match msg.content with
            | none => .error ()
            | some content =>
              match content.getLast? with
              | none => .error ()
              | some item =>
                match item.text with
                | none => .error ()
                | some t => .ok (some t)

/-- The whole `try` body (lines 323-345): block one, block two, the
`isinstance(graph_result, str)` branch, then `return str(graph_result)`. -/
def extract_try (g : GraphResult) : Except Unit String :=
  match extract_block_one g with
  | .error e => .error e
  | .ok (some s) => .ok s
  | .ok none =>
    match extract_block_two g with
    | .error e => .error e
    | .ok (some s) => .ok s
    | .ok none =>
      match g with
      | .str s => .ok s
      | .obj _ => .ok g.pystr

/-- The guarded loop of the `except` handler (lines 350-358): iterate over
`graph_result.results.items()`, return the first content text found;
`'content'` IS membership-checked here, but `[-1]` and `['text']` can
still raise (caught one level up by the inner `except`). -/
def extract_fallback_loop : List (String × NodeResult) →
    Except Unit (Option String)
  | [] => .ok none
  | (_, node_result) :: rest =>
    match node_result.result with
    | none => extract_fallback_loop rest
    | some ar =>
      match ar.message with
      | none => extract_fallback_loop rest
      | some msg =>
        match msg.content with
        | none => extract_fallback_loop rest
        | some content =>
          match content.getLast? with
          | none => .error ()
          | some item =>
            match item.text with
            | none => .error ()
            | some t => .ok (some t)

/-- The inner `try` of the `except` handler (lines 350-358), including its
`hasattr`/`isinstance` guard. -/
def extract_fallback : GraphResult → Except Unit (Option String)
  | .str _ => .ok none
  | .obj o =>
    match o.results with
    | none => .ok none
    | some results => extract_fallback_loop results

/-- `StrandsAgentManager._extract_final_result` (lines 321-360): run the
`try` body; on an exception run the guarded fallback loop (its own
exceptions swallowed by the inner `except`) and finally return
`str(graph_result)`. -/
def extract_final_result (g : GraphResult) : Except Unit String :=
  match extract_try g with
  | .ok s => .ok s
  | .error _ =>
    match extract_fallback g with
    | .ok (some s) => .ok s
    | .ok none => .ok g.pystr
    | .error _ => .ok g.pystr

end WebUI

/-!
## Theorems about the claims
-/

/-- C1, counterexample: in the graph built by `web_ui.py`'s
`_build_graph`, the edge set is NOT `{task_decomposer → task_executor,
task_executor → result_aggregator}` — neither of those edges is ever
added, so the `task_executor` stage does not sit between the decomposer
and the aggregator. -/
theorem claim_C1_counterexample :
    ("task_decomposer", "task_executor") ∉ WebUI.builder.edges ∧
    ("task_executor", "result_aggregator") ∉ WebUI.builder.edges ∧
    WebUI.builder.edges ≠
      [("task_decomposer", "task_executor"),
       ("task_executor", "result_aggregator")] := by
  decide

/-- C1, amended: in the graphs built by `web_ui.py` and `agent-graph.py`
the edge set is exactly `{task_decomposer → kubectl_command_agent,
kubectl_command_agent → result_aggregator}` with `task_decomposer` as
entry point; `task_executor` is added as a node but touches no edge, so
the kubectl command agent is the middle pipeline stage: it is the sole
predecessor of the aggregator and the sole successor of the decomposer. -/
theorem claim_C1_thm :
    WebUI.builder.edges =
      [("task_decomposer", "kubectl_command_agent"),
       ("kubectl_command_agent", "result_aggregator")] ∧
    WebUI.builder.entry_point = some "task_decomposer" ∧
    AgentGraph.builder.edges =
      [("task_decomposer", "kubectl_command_agent"),
       ("kubectl_command_agent", "result_aggregator")] ∧
    AgentGraph.builder.entry_point = some "task_decomposer" ∧
    "task_executor" ∈ WebUI.builder.nodes ∧
    WebUI.builder.edges.all
      (fun p => p.1 != "task_executor" && p.2 != "task_executor") = true ∧
    WebUI.builder.edges.filter (fun p => p.2 == "result_aggregator") =
      [("kubectl_command_agent", "result_aggregator")] ∧
    WebUI.builder.edges.filter (fun p => p.2 == "kubectl_command_agent") =
      [("task_decomposer", "kubectl_command_agent")] := by
  decide

/-- C2, counterexample: the `load_system_prompt` of `agent-graph.py` (and
the identical one of `agent-graph-ui.py`) returns Python `None` — not the
hard-coded default prompt — when the file is absent. -/
theorem claim_C2_counterexample :
    AgentGraph.load_system_prompt FileRead.notFound = Except.ok none ∧
    AgentGraphUI.load_system_prompt FileRead.notFound = Except.ok none ∧
    (none : Option String) ≠ some default_prompt := by
  exact ⟨rfl, rfl, by simp⟩

/-- C2, amended: when the prompt file is absent or fails YAML parsing,
`web_ui.py`'s `StrandsAgentManager.load_system_prompt` returns the
hard-coded default prompt without raising, while the module-level
`load_system_prompt` of `agent-graph.py` and `agent-graph-ui.py` returns
`None` (also without raising). -/
theorem claim_C2_thm :
    ∀ file : FileRead,
      file = FileRead.notFound ∨ file = FileRead.yamlError →
      WebUI.load_system_prompt file = Except.ok (some default_prompt) ∧
      AgentGraph.load_system_prompt file = Except.ok none ∧
      AgentGraphUI.load_system_prompt file = Except.ok none := by
  rintro file (rfl | rfl) <;> exact ⟨rfl, rfl, rfl⟩

/-- C2, witness: the amended statement at the absent-file outcome. -/
theorem claim_C2_witness :
    WebUI.load_system_prompt FileRead.notFound =
      Except.ok (some default_prompt) ∧
    AgentGraph.load_system_prompt FileRead.notFound = Except.ok none ∧
    AgentGraphUI.load_system_prompt FileRead.notFound = Except.ok none :=
  claim_C2_thm FileRead.notFound (Or.inl rfl)

/-- C3, counterexample: in `agent-graph.py` the tool-listing blocks are
not guarded by any `try`/`except`, so a failing AWS MCP client aborts the
script with the exception instead of printing a warning and leaving the
four base tools. -/
theorem claim_C3_counterexample :
    AgentGraph.all_tools
        (Except.error "MCPClientInitializationError") (Except.ok []) =
      Except.error "MCPClientInitializationError" ∧
    (AgentGraph.all_tools
        (Except.error "MCPClientInitializationError")
        (Except.ok [])).isOk = false :=
  ⟨rfl, rfl⟩

/-- C3, amended: only `agent-graph-ui.py` loads MCP tools under
`try`/`except`: there a failing listing prints a warning and execution
continues, the list always extends the four base tools, and when both
listings fail it is exactly the four base tools; in `agent-graph.py` the
same blocks are unguarded, so any listing failure propagates and aborts
the script. -/
theorem claim_C3_thm :
    ∀ (e1 e2 : String) (awsList ghList : Except String (List String))
      (ts : List String),
      AgentGraphUI.all_tools (Except.error e1) (Except.error e2) =
        (base_tools,
         ["AWS MCP tools failed to load: " ++ e1,
          "GitHub MCP tools failed to load: " ++ e2,
          "Total tools loaded: 4"]) ∧
      (∃ rest, (AgentGraphUI.all_tools awsList ghList).1 =
        base_tools ++ rest) ∧
      AgentGraph.all_tools (Except.error e1) ghList = Except.error e1 ∧
      AgentGraph.all_tools (Except.ok ts) (Except.error e2) =
        Except.error e2 := by
  intro e1 e2 awsList ghList ts
  refine ⟨rfl, ?_, rfl, rfl⟩
  cases awsList with
  | ok aws_tools =>
    cases ghList with
    | ok github_tools =>
      exact ⟨aws_tools ++ github_tools,
        by simp [AgentGraphUI.all_tools]⟩
    | error e => exact ⟨aws_tools, by simp [AgentGraphUI.all_tools]⟩
  | error e =>
    cases ghList with
    | ok github_tools =>
      exact ⟨github_tools, by simp [AgentGraphUI.all_tools]⟩
    | error e => exact ⟨[], by simp [AgentGraphUI.all_tools]⟩

/-- C7, counterexample: with no environment variable set, the AWS
subprocess environment carries `"us-east-1"` — not the empty string — for
`AWS_DEFAULT_REGION`. -/
theorem claim_C7_counterexample :
    aws_docs_env empty_env =
      [("AWS_ACCESS_KEY_ID", ""), ("AWS_SECRET_ACCESS_KEY", ""),
       ("AWS_DEFAULT_REGION", "us-east-1")] ∧
    github_env empty_env = [("GITHUB_PERSONAL_ACCESS_TOKEN", "")] ∧
    ("us-east-1" : String) ≠ "" :=
  ⟨rfl, rfl, by decide⟩

/-- C7, amended: unset `AWS_ACCESS_KEY_ID`, `AWS_SECRET_ACCESS_KEY` and
`GITHUB_PERSONAL_ACCESS_TOKEN` default to the empty string in the MCP
subprocess environments, but unset `AWS_DEFAULT_REGION` defaults to
`"us-east-1"`. -/
theorem claim_C7_thm :
    ∀ env : String → Option String,
      (env "AWS_ACCESS_KEY_ID" = none →
        (aws_docs_env env).lookup "AWS_ACCESS_KEY_ID" = some "") ∧
      (env "AWS_SECRET_ACCESS_KEY" = none →
        (aws_docs_env env).lookup "AWS_SECRET_ACCESS_KEY" = some "") ∧
      (env "AWS_DEFAULT_REGION" = none →
        (aws_docs_env env).lookup "AWS_DEFAULT_REGION" =
          some "us-east-1") ∧
      (env "GITHUB_PERSONAL_ACCESS_TOKEN" = none →
        (github_env env).lookup "GITHUB_PERSONAL_ACCESS_TOKEN" =
          some "") := by
  intro env
  refine ⟨fun h => ?_, fun h => ?_, fun h => ?_, fun h => ?_⟩ <;>
    simp [aws_docs_env, github_env, List.lookup, h]

/-- C7, witness: the amended statement at the empty environment. -/
theorem claim_C7_witness :
    (aws_docs_env empty_env).lookup "AWS_ACCESS_KEY_ID" = some "" ∧
    (aws_docs_env empty_env).lookup "AWS_DEFAULT_REGION" =
      some "us-east-1" ∧
    (github_env empty_env).lookup "GITHUB_PERSONAL_ACCESS_TOKEN" =
      some "" :=
  ⟨(claim_C7_thm empty_env).1 rfl,
   (claim_C7_thm empty_env).2.2.1 rfl,
   (claim_C7_thm empty_env).2.2.2 rfl⟩

/-- C4: `event_handler_func` assigns the documented category label to each
documented payload shape: a payload whose only relevant key is
`current_tool_use` with a non-empty name is a tool-use event, one with
only `data` is a text event, one whose `event` value holds exactly one of
`messageStart`/`messageStop`/`contentBlockStart`/`contentBlockStop` is a
control event, one whose `event` value holds `metadata` is a metadata
event, and any payload whose `message` value has a `role` key is a message
event. -/
theorem claim_C4_thm :
    ∀ e : WebUI.CallbackEvent,
      (∀ ctu n, e.current_tool_use = some ctu → ctu.name = some n →
        n ≠ "" → e.data = none → e.event = none → e.delta = none →
        e.message = none →
        (WebUI.classifyEvent e).event_type = "tool_use") ∧
      (∀ d, e.data = some d → e.current_tool_use = none → e.event = none →
        e.delta = none → e.message = none →
        (WebUI.classifyEvent e).event_type = "text") ∧
      (∀ inner, e.event = some inner → e.current_tool_use = none →
        e.data = none → e.delta = none → e.message = none →
        inner.contentBlockDelta = none → inner.metadata = none →
        (inner.messageStart = true ∨ inner.messageStop = true ∨
         inner.contentBlockStart.isSome = true ∨
         inner.contentBlockStop = true) →
        (WebUI.classifyEvent e).event_type = "control") ∧
      (∀ inner md, e.event = some inner → e.current_tool_use = none →
        e.data = none → e.delta = none → e.message = none →
        inner.messageStart = false → inner.messageStop = false →
        inner.contentBlockStart = none → inner.contentBlockStop = false →
        inner.contentBlockDelta = none → inner.metadata = some md →
        (WebUI.classifyEvent e).event_type = "metadata") ∧
      (∀ m, e.message = some m → m.hasKey "role" = true →
        (WebUI.classifyEvent e).event_type = "message") := by
  intro e
  obtain ⟨iel, sel, st, ctu0, d0, ev0, del0, msg0⟩ := e
  refine ⟨?_, ?_, ?_, ?_, ?_⟩
  · intro ctu n h1 h2 h3 h4 h5 h6 h7
    obtain ⟨nm, inp⟩ := ctu
    simp only at h1 h4 h5 h6 h7
    subst h1 h4 h5 h6 h7
    simp only at h2
    subst h2
    simp [WebUI.classifyEvent, h3]
  · intro d h1 h2 h3 h4 h5
    simp only at h1 h2 h3 h4 h5
    subst h1 h2 h3 h4 h5
    simp [WebUI.classifyEvent]
  · intro inner h1 h2 h3 h4 h5 h6 h7 h8
    obtain ⟨ms, msp, cbs, cbstop, cbd, md⟩ := inner
    simp only at h1 h2 h3 h4 h5 h6 h7
    subst h1 h2 h3 h4 h5 h6 h7
    cases ms <;> cases msp <;> cases cbs <;> cases cbstop <;>
      simp_all [WebUI.classifyEvent]
  · intro inner md h1 h2 h3 h4 h5 h6 h7 h8 h9 h10 h11
    obtain ⟨ms, msp, cbs, cbstop, cbd, mdf⟩ := inner
    simp only at h1 h2 h3 h4 h5 h6 h7 h8 h9 h10 h11
    subst h1 h2 h3 h4 h5 h6 h7 h8 h9 h10 h11
    simp [WebUI.classifyEvent]
  · intro m h1 h2
    simp only at h1
    subst h1
    simp [WebUI.classifyEvent, h2]

/-- C4, witness: the five shapes at concrete payloads. -/
theorem claim_C4_witness :
    (WebUI.classifyEvent
      { current_tool_use :=
          some ⟨some "calculator", some (Json.obj [])⟩ }).event_type =
      "tool_use" ∧
    (WebUI.classifyEvent { data := some "hello" }).event_type = "text" ∧
    (WebUI.classifyEvent
      { event := some ⟨true, false, none, false, none, none⟩ }).event_type =
      "control" ∧
    (WebUI.classifyEvent
      { event :=
          some ⟨false, false, none, false, none,
            some (Json.obj [])⟩ }).event_type = "metadata" ∧
    (WebUI.classifyEvent
      { message :=
          some (Json.obj [("role", Json.str "assistant")]) }).event_type =
      "message" :=
  ⟨(claim_C4_thm _).1 ⟨some "calculator", some (Json.obj [])⟩ "calculator"
      rfl rfl (by decide) rfl rfl rfl rfl,
   (claim_C4_thm _).2.1 "hello" rfl rfl rfl rfl rfl,
   (claim_C4_thm _).2.2.1 ⟨true, false, none, false, none, none⟩
      rfl rfl rfl rfl rfl rfl rfl (Or.inl rfl),
   (claim_C4_thm _).2.2.2.1
      ⟨false, false, none, false, none, some (Json.obj [])⟩ (Json.obj [])
      rfl rfl rfl rfl rfl rfl rfl rfl rfl rfl rfl,
   (claim_C4_thm _).2.2.2.2 (Json.obj [("role", Json.str "assistant")])
      rfl rfl⟩

/-- C5, counterexample: the module-level `format_markdown_output` of
`agent-graph-ui.py` rewrites the non-header, non-heading line `"-item"`
to `"- item"`, which is more than whitespace stripping. -/
theorem claim_C5_counterexample :
    AgentGraphUI.format_markdown_output "-item" = "- item" ∧
    pyStrip "-item" = "-item" ∧
    ("- item" : String) ≠ "-item" :=
  ⟨by decide, by decide, by decide⟩

/-- C5, amended: in both formatting passes a stripped line containing a
section label and not starting with `#` becomes a `## ` heading, and a
line already starting with `#` passes through stripped; in the method
version every non-label line passes through stripped, while the
module-level version additionally rewrites bullet lines starting with `-`
or `•` but not with `- ` to normalized `- ` bullets, passing all other
lines through stripped. -/
theorem claim_C5_thm :
    ∀ l : String,
      (header_labels.any
          (fun h => strContainsSub (pyLower (pyStrip l)) h) = true →
        pyStartsWith (pyStrip l) "#" = false →
        AgentGraphUI.format_markdown_line l = "## " ++ pyStrip l ∧
        AgentGraphUI.StrandsAgentManager.format_markdown_line l =
          "## " ++ pyStrip l) ∧
      ((pyStrip l).data.head? = some '#' →
        AgentGraphUI.format_markdown_line l = pyStrip l ∧
        AgentGraphUI.StrandsAgentManager.format_markdown_line l =
          pyStrip l) ∧
      (header_labels.any
          (fun h => strContainsSub (pyLower (pyStrip l)) h) = false →
        AgentGraphUI.StrandsAgentManager.format_markdown_line l =
          pyStrip l) ∧
      (header_labels.any
          (fun h => strContainsSub (pyLower (pyStrip l)) h) = false →
        (pyStartsWith (pyStrip l) "-" = true ∨
         pyStartsWith (pyStrip l) "•" = true) →
        pyStartsWith (pyStrip l) "- " = false →
        AgentGraphUI.format_markdown_line l =
          "- " ++ pyStrip (pyDrop (pyStrip l) 1)) ∧
      (header_labels.any
          (fun h => strContainsSub (pyLower (pyStrip l)) h) = false →
        pyStartsWith (pyStrip l) "-" = false →
        pyStartsWith (pyStrip l) "•" = false →
        AgentGraphUI.format_markdown_line l = pyStrip l) ∧
      (header_labels.any
          (fun h => strContainsSub (pyLower (pyStrip l)) h) = false →
        pyStartsWith (pyStrip l) "- " = true →
        AgentGraphUI.format_markdown_line l = pyStrip l) := by
  intro l
  refine ⟨?_, ?_, ?_, ?_, ?_, ?_⟩
  · -- header line, not already a heading
    intro h1 h2
    have hne : pyStrip l ≠ "" := by
      intro h0
      rw [h0] at h1
      exact absurd h1 (by decide)
    constructor <;>
      simp [AgentGraphUI.format_markdown_line,
        AgentGraphUI.StrandsAgentManager.format_markdown_line, h1, h2, hne]
  · -- line already starting with a heading mark
    intro h
    rcases hdata : (pyStrip l).data with _ | ⟨c0, rest⟩
    · rw [hdata] at h
      simp at h
    · rw [hdata] at h
      simp at h
      subst h
      have hne : pyStrip l ≠ "" := by
        intro h0
        rw [h0] at hdata
        simp at hdata
      by_cases hh :
          header_labels.any
            (fun h => strContainsSub (pyLower (pyStrip l)) h) = true
      · constructor <;>
          simp [AgentGraphUI.format_markdown_line,
            AgentGraphUI.StrandsAgentManager.format_markdown_line, hh, hne,
            pyStartsWith, hdata, List.isPrefixOf]
      · simp only [Bool.not_eq_true] at hh
        constructor <;>
          (simp [AgentGraphUI.format_markdown_line,
            AgentGraphUI.StrandsAgentManager.format_markdown_line, hh, hne,
            pyStartsWith, hdata, List.isPrefixOf]
           rcases rest with _ | ⟨c1, _ | ⟨c2, r⟩⟩ <;> simp [hdata])
  · -- manager version: non-label lines pass through stripped
    intro h1
    by_cases hline : pyStrip l = ""
    · simp [AgentGraphUI.StrandsAgentManager.format_markdown_line, hline]
    · simp [AgentGraphUI.StrandsAgentManager.format_markdown_line, h1,
        hline]
      rcases hdata : (pyStrip l).data with _ | ⟨c0, _ | ⟨c1, _ | ⟨c2, r⟩⟩⟩ <;>
        simp [hdata]
  · -- module version: bullet normalization
    intro h1 h2 h3
    have hne : pyStrip l ≠ "" := by
      intro h0
      rcases h2 with h2 | h2 <;> rw [h0] at h2 <;> exact absurd h2 (by decide)
    rcases h2 with h2 | h2 <;>
      simp [AgentGraphUI.format_markdown_line, h1, h2, h3, hne]
  · -- module version: non-bullet lines pass through stripped
    intro h1 h2 h3
    by_cases hline : pyStrip l = ""
    · simp [AgentGraphUI.format_markdown_line, hline]
    · simp [AgentGraphUI.format_markdown_line, h1, h2, h3, hline]
      rcases hdata : (pyStrip l).data with _ | ⟨c0, _ | ⟨c1, _ | ⟨c2, r⟩⟩⟩ <;>
        simp [hdata]
  · -- module version: already-normalized bullets pass through
    intro h1 h2
    have hminus : pyStartsWith (pyStrip l) "-" = true := by
      rcases hdata : (pyStrip l).data with _ | ⟨c0, rest⟩ <;>
        rw [pyStartsWith, hdata] at h2 ⊢
      · simp [List.isPrefixOf] at h2
      · simp [List.isPrefixOf] at h2 ⊢
        exact h2.1
    have hne : pyStrip l ≠ "" := by
      intro h0
      rw [h0] at h2
      exact absurd h2 (by decide)
    simp [AgentGraphUI.format_markdown_line, h1, h2, hminus, hne]

/-- C5, witness: the amended statement's heading branch at the line
`"Key Findings"`. -/
theorem claim_C5_witness :
    AgentGraphUI.format_markdown_line "Key Findings" =
      "## " ++ pyStrip "Key Findings" ∧
    AgentGraphUI.StrandsAgentManager.format_markdown_line "Key Findings" =
      "## " ++ pyStrip "Key Findings" :=
  (claim_C5_thm "Key Findings").1 (by decide) (by decide)

/-- C6: `_extract_final_result` is total — on every graph result it
returns a string and never propagates an exception — and whenever the
`try` body raises and the guarded fallback loop finds nothing (or itself
raises), the returned value is the raw string representation of the
input. -/
theorem claim_C6_thm :
    ∀ g : WebUI.GraphResult,
      (∃ s, WebUI.extract_final_result g = Except.ok s) ∧
      (WebUI.extract_try g = Except.error () ∧
        (WebUI.extract_fallback g = Except.ok none ∨
         WebUI.extract_fallback g = Except.error ()) →
        WebUI.extract_final_result g = Except.ok g.pystr) := by
  intro g
  constructor
  · cases h : WebUI.extract_try g with
    | ok s => exact ⟨s, by simp [WebUI.extract_final_result, h]⟩
    | error u =>
      cases h2 : WebUI.extract_fallback g with
      | ok os =>
        cases os with
        | some s =>
          exact ⟨s, by simp [WebUI.extract_final_result, h, h2]⟩
        | none =>
          exact ⟨g.pystr, by simp [WebUI.extract_final_result, h, h2]⟩
      | error u2 =>
        exact ⟨g.pystr, by simp [WebUI.extract_final_result, h, h2]⟩
  · rintro ⟨h1, h2⟩
    rcases h2 with h2 | h2 <;>
      simp [WebUI.extract_final_result, h1, h2]

/-- C6, witness: a graph result whose last execution has an empty content
list, so `content[-1]` raises inside the `try` body, the fallback loop
finds nothing, and the raw string representation is returned. -/
theorem claim_C6_witness :
    WebUI.extract_final_result
        (WebUI.GraphResult.obj
          ⟨some [⟨some ⟨some ⟨some ⟨some []⟩⟩⟩⟩], none⟩) =
      Except.ok
        (WebUI.GraphResult.obj
          ⟨some [⟨some ⟨some ⟨some ⟨some []⟩⟩⟩⟩], none⟩).pystr :=
  (claim_C6_thm _).2 ⟨rfl, Or.inl rfl⟩

/-- Appending through `event_handler_func` preserves the all-message
invariant of the `agent_events` list. -/
theorem handler_all_message (now : Nat) (st : List WebUI.AgentEvent)
    (ev : WebUI.CallbackEvent)
    (h : st.all (fun r => r.event_type == "message") = true) :
    ((WebUI.event_handler_func now st ev).all
      (fun r => r.event_type == "message")) = true := by
  simp only [WebUI.event_handler_func]
  split
  next hcond =>
    have hmsg : (WebUI.classifyEvent ev).event_type = "message" := by
      simpa using hcond
    simp [List.all_append, h, hmsg]
  next hcond => exact h

/-- The all-message invariant holds after folding any payload sequence. -/
theorem foldl_all_message (now : Nat) :
    ∀ (ps : List WebUI.CallbackEvent) (st : List WebUI.AgentEvent),
      st.all (fun r => r.event_type == "message") = true →
      ((ps.foldl (WebUI.event_handler_func now) st).all
        (fun r => r.event_type == "message")) = true := by
  intro ps
  induction ps with
  | nil => intro st h; simpa using h
  | cons p ps ih =>
    intro st h
    exact ih _ (handler_all_message now st p h)

/-- C8: for an existing, well-formed YAML file whose mapping contains a
`system_prompt` key, every prompt-loading function returns exactly the
string stored under that key, untransformed. -/
theorem claim_C8_thm :
    ∀ (config : List (String × String)) (v : String),
      config.lookup "system_prompt" = some v →
      WebUI.load_system_prompt (FileRead.content config) =
        Except.ok (some v) ∧
      AgentGraph.load_system_prompt (FileRead.content config) =
        Except.ok (some v) ∧
      AgentGraphUI.load_system_prompt (FileRead.content config) =
        Except.ok (some v) := by
  intro config v h
  simp [WebUI.load_system_prompt, AgentGraph.load_system_prompt,
    AgentGraphUI.load_system_prompt, h]

/-- C8, witness: a one-entry configuration mapping. -/
theorem claim_C8_witness :
    WebUI.load_system_prompt
        (FileRead.content
          [("system_prompt", "You are a Kubernetes agent")]) =
      Except.ok (some "You are a Kubernetes agent") ∧
    AgentGraph.load_system_prompt
        (FileRead.content
          [("system_prompt", "You are a Kubernetes agent")]) =
      Except.ok (some "You are a Kubernetes agent") ∧
    AgentGraphUI.load_system_prompt
        (FileRead.content
          [("system_prompt", "You are a Kubernetes agent")]) =
      Except.ok (some "You are a Kubernetes agent") :=
  claim_C8_thm [("system_prompt", "You are a Kubernetes agent")]
    "You are a Kubernetes agent" (by decide)

/-- C9: after any sequence of calls to the event handler, every record in
`agent_events` has event type `"message"`; a payload classified as
anything else is never appended. -/
theorem claim_C9_thm :
    ∀ (now : Nat) (payloads : List WebUI.CallbackEvent),
      ((WebUI.agent_events_after now payloads).all
        (fun r => r.event_type == "message")) = true ∧
      (∀ st ev, (WebUI.classifyEvent ev).event_type ≠ "message" →
        WebUI.event_handler_func now st ev = st) := by
  intro now payloads
  constructor
  · exact foldl_all_message now payloads [] rfl
  · intro st ev h
    simp [WebUI.event_handler_func, h]

/-- C9, witness: a message payload followed by a text payload leaves only
message records, and a text payload alone appends nothing. -/
theorem claim_C9_witness :
    ((WebUI.agent_events_after 0
        [{ message := some (Json.obj [("role", Json.str "assistant")]) },
         { data := some "hi" }]).all
      (fun r => r.event_type == "message")) = true ∧
    WebUI.event_handler_func 0 [] { data := some "hi" } = [] :=
  ⟨(claim_C9_thm 0
      [{ message := some (Json.obj [("role", Json.str "assistant")]) },
       { data := some "hi" }]).1,
   (claim_C9_thm 0 []).2 [] { data := some "hi" } (by decide)⟩

/-- C10: `StrandsAgentManager._load_tools` of `agent-graph-ui.py` returns
exactly the four base tools whatever the outcome of the two MCP listing
attempts — the listed MCP tools are never appended, so the returned list
always has length four. -/
theorem claim_C10_thm :
    ∀ awsList ghList : Except String (List String),
      (AgentGraphUI.load_tools awsList ghList).1 = base_tools ∧
      (AgentGraphUI.load_tools awsList ghList).1.length = 4 := by
  intro awsList ghList
  exact ⟨rfl, rfl⟩

end StrandsSamples
